import Mathlib

/-!
Verification of the `bump` release tool: a shallow embedding of its
version parsing (src/version.rs), version-resolution decision engine and
release workflow (src/main.rs), and workspace consistency checker
(src/cargo.rs), together with theorems settling the specification claims.
-/

set_option autoImplicit false

namespace Bump

/-- Embedding of `semver::Version`: a major.minor.patch triple plus the
pre-release and build-metadata suffix strings (empty string = no suffix),
as stored by the `semver` crate. -/
structure SemVer where
  major : Nat
  minor : Nat
  patch : Nat
  pre : String
  build : String
deriving DecidableEq, Repr

/-- Embedding of `BumpType` from src/version.rs. -/
inductive BumpType where
  | major
  | minor
  | patch
deriving DecidableEq, Repr

/-- Embedding of `BumpType::from_cli` (src/version.rs): major wins over
minor; default patch. -/
def BumpType.from_cli (major minor : Bool) : BumpType :=
  match major, minor with
  | true, _ => .major
  | _, true => .minor
  | _, _ => .patch

/-- Embedding of `bump_version` (src/version.rs lines 39-58): clone the
version and increment the component selected by the bump type, zeroing
the lower components.  The components are the semver crate's u64 fields,
so the `+= 1` is u64 arithmetic: the increment wraps modulo 2^64 (the
release-build overflow behavior of the source). -/
def bump_version (v : SemVer) (b : BumpType) : SemVer :=
  match b with
  | .major => { v with major := (v.major + 1) % 2 ^ 64, minor := 0, patch := 0 }
  | .minor => { v with minor := (v.minor + 1) % 2 ^ 64, patch := 0 }
  | .patch => { v with patch := (v.patch + 1) % 2 ^ 64 }

/-- Embedding of `format_cargo_version` (src/version.rs): decimal triple,
no prefix. -/
def format_cargo_version (v : SemVer) : String :=
  toString v.major ++ "." ++ toString v.minor ++ "." ++ toString v.patch

/-- Embedding of `format_tag` (src/version.rs): the triple with a leading v. -/
def format_tag (v : SemVer) : String :=
  "v" ++ toString v.major ++ "." ++ toString v.minor ++ "." ++ toString v.patch

/-- Strict lexicographic order on the (major, minor, patch) triple, the
ordering named by the specification for bump monotonicity. -/
def semverLt (a b : SemVer) : Prop :=
  a.major < b.major ∨
    (a.major = b.major ∧
      (a.minor < b.minor ∨ (a.minor = b.minor ∧ a.patch < b.patch)))

/-! ### The semver string parser

`version.rs::parse_version` delegates to `semver::Version::parse`.  The
grammar of that crate is embedded here at the character level:
`major.minor.patch` with optional `-prerelease` and `+build` suffixes,
numeric components are digit runs without leading zeros that fit in a
64-bit integer, and suffix identifiers are nonempty dot-separated runs
of ASCII alphanumerics and hyphens (numeric pre-release identifiers must
not have leading zeros). -/

/-- Digit test used by the numeric components of the grammar. -/
def isDigitC (c : Char) : Bool := c.isDigit

/-- Identifier characters allowed in pre-release and build identifiers:
ASCII alphanumerics and the hyphen. -/
def isIdentC (c : Char) : Bool := c.isDigit || c.isAlpha || c == '-'

/-- Value of a run of decimal digits, most significant first. -/
def digitsToNat (ds : List Char) : Nat :=
  ds.foldl (fun acc c => acc * 10 + (c.toNat - 48)) 0

/-- Parse one numeric component: a nonempty digit run, no leading zero
unless the run is exactly "0", value bounded by the u64 domain (the
crate accumulates into a u64 and errors on overflow). Returns the value
and the unconsumed characters. -/
def parseNumPart (cs : List Char) : Option (Nat × List Char) :=
  let ds := cs.takeWhile isDigitC
  let rest := cs.dropWhile isDigitC
  if ds.isEmpty then none
  else if ds.head? == some '0' && ds.length != 1 then none
  else if digitsToNat ds < 2 ^ 64 then some (digitsToNat ds, rest)
  else none

/-- Consume a literal dot separator. -/
def expectDot : List Char → Option (List Char)
  | '.' :: rest => some rest
  | _ => none

/-- Validity of the pre-release section: nonempty dot-separated
identifiers over the identifier alphabet; an all-digit identifier must
not have a leading zero. -/
def validPre (cs : List Char) : Bool :=
  (cs.splitOn '.').all fun id =>
    !id.isEmpty && id.all isIdentC &&
      (!(id.all isDigitC) || !(id.head? == some '0' && id.length != 1))

/-- Validity of the build-metadata section: nonempty dot-separated
identifiers over the identifier alphabet (leading zeros allowed). -/
def validBuild (cs : List Char) : Bool :=
  (cs.splitOn '.').all fun id => !id.isEmpty && id.all isIdentC

/-- Embedding of `semver::Version::parse`: the full input must be
`major.minor.patch` optionally followed by `-pre` and then `+build`. -/
def semverParse (s : String) : Option SemVer := do
  let (maj, r1) ← parseNumPart s.data
  let r1 ← expectDot r1
  let (mnr, r2) ← parseNumPart r1
  let r2 ← expectDot r2
  let (pat, r3) ← parseNumPart r2
  match r3 with
  | [] => some ⟨maj, mnr, pat, "", ""⟩
  | '-' :: rest =>
    let preChunk := rest.takeWhile (fun c => c != '+')
    let rem := rest.dropWhile (fun c => c != '+')
    if !validPre preChunk then none
    else
      match rem with
      | [] => some ⟨maj, mnr, pat, ⟨preChunk⟩, ""⟩
      | '+' :: b =>
        if validBuild b then some ⟨maj, mnr, pat, ⟨preChunk⟩, ⟨b⟩⟩ else none
      | _ => none
  | '+' :: b =>
    if validBuild b then some ⟨maj, mnr, pat, "", ⟨b⟩⟩ else none
  | _ => none

/-- Embedding of `version_str.strip_prefix('v').unwrap_or(version_str)`:
remove one leading v when present. -/
def stripV (s : String) : String :=
  match s.data with
  | 'v' :: rest => ⟨rest⟩
  | _ => s

/-- Embedding of `parse_version` (src/version.rs lines 23-36): strip one
optional leading v, run the semver parser, then reject any pre-release
or build-metadata suffix. -/
def parse_version (s : String) : Except String SemVer :=
  let t := stripV s
  match semverParse t with
  | none => .error ("unexpected character in version: " ++ t)
  | some v =>
    if v.pre ≠ "" then
      .error ("Pre-release versions are not supported: " ++ t)
    else if v.build ≠ "" then
      .error ("Build metadata versions are not supported: " ++ t)
    else .ok v

/-! ### Version resolution (src/main.rs) -/

/-- Embedding of the `VersionAction` struct (src/main.rs lines 104-112). -/
structure VersionAction where
  target_version : SemVer
  needs_cargo_update : Bool
  is_initial_tag : Bool
deriving DecidableEq, Repr

/-- Embedding of `DEFAULT_UNTOUCHED_VERSION` (src/main.rs line 115):
`Version::new(0, 1, 0)`, with empty suffixes. -/
def DEFAULT_UNTOUCHED_VERSION : SemVer := ⟨0, 1, 0, "", ""⟩

/-- Embedding of `IndependentVersionMember` (src/cargo.rs lines 184-189). -/
structure IndependentVersionMember where
  name : String
  path : String
  version : String
deriving DecidableEq, Repr

/-- The distinct `bail!` failure sites of the per-directory processing in
src/main.rs, each constructor carrying the data its message interpolates. -/
inductive Err where
  | notGitRepo
  | noCargoToml
  | workspaceIndependentVersions (members : List IndependentVersionMember)
  | versionMismatch (cargo tag : SemVer)
  | tagAlreadyExists (tag : String)
  | headAlreadyTagged
  | emptyCommitMessage
deriving DecidableEq, Repr

/-- Rendering of the version-mismatch `bail!` message
(src/main.rs lines 152-157). -/
def renderMismatchMessage (cargo tag : SemVer) : String :=
  "Version mismatch: Cargo.toml has " ++ format_cargo_version cargo ++
    " but latest git tag is " ++ format_tag tag ++
    ". Please sync them manually before running bump."

/-- The match over `(cargo_version, latest_tag_version)` at the heart of
`determine_version_action` (src/main.rs lines 126-196), on already-parsed
optional versions. -/
def resolveVersions (cargoV tagV : Option SemVer) (b : BumpType) :
    Except Err VersionAction :=
  match cargoV, tagV with
  | some cargo, some tag =>
    if cargo = DEFAULT_UNTOUCHED_VERSION then
      .ok ⟨bump_version tag b, true, false⟩
    else if cargo = tag then
      .ok ⟨bump_version cargo b, true, false⟩
    else
      .error (.versionMismatch cargo tag)
  | some cargo, none => .ok ⟨cargo, false, true⟩
  | none, some tag => .ok ⟨bump_version tag b, true, false⟩
  | none, none => .ok ⟨⟨0, 1, 0, "", ""⟩, true, true⟩

/-- Embedding of `determine_version_action` (src/main.rs lines 118-197)
over the raw optional strings read from Cargo.toml and the latest git
tag: each reading is parsed and an unparseable reading is mapped to
`none` via `.ok()` before the resolution match runs. -/
def determine_version_action (cargoStr tagStr : Option String)
    (b : BumpType) : Except Err VersionAction :=
  resolveVersions (cargoStr.bind fun v => (parse_version v).toOption)
    (tagStr.bind fun t => (parse_version t).toOption) b

/-! ### Workspace consistency checker (src/cargo.rs) -/

/-- Shape of a member manifest's `package.version` item as toml_edit
exposes it: a plain string, an inline table with `workspace = true`, or
any other item (for which both `as_str` and the workspace-inheritance
test fail). -/
inductive VersionItem where
  | str (s : String)
  | workspaceTrue
  | other
deriving DecidableEq, Repr

/-- The fields of a member manifest's `[package]` table that the checker
reads: `name` (when it is a string) and `version` (when present). -/
structure MemberPackage where
  name : Option String
  version : Option VersionItem
deriving DecidableEq, Repr

/-- A parsed member manifest: its optional `[package]` table. -/
structure MemberManifest where
  package : Option MemberPackage
deriving DecidableEq, Repr

/-- State of a member manifest file on disk: absent, present but
unreadable or unparseable (a hard error in the source), or parsed. -/
inductive MemberFile where
  | missing
  | unparseable
  | parsed (m : MemberManifest)

/-- One entry of the root `workspace.members` array: a string path, or a
non-string item (`member.as_str()` fails and the loop continues). -/
inductive MemberItem where
  | path (p : String)
  | notStr
deriving DecidableEq, Repr

/-- The root manifest as the checker reads it: `none` when there is no
`[workspace]` table; otherwise the `members` key resolved through
`as_array` (`none` when absent or not an array). -/
structure RootManifest where
  workspace : Option (Option (List MemberItem))

/-- Processing of one entry of the members loop
(src/cargo.rs lines 213-256): skip non-string entries and missing
manifests, fail hard on unreadable/unparseable manifests, and record a
member exactly when its `package.version` is a plain string, naming it
by `package.name` or by its path. -/
def checkMember (fetch : String → MemberFile) (item : MemberItem) :
    Except Unit (Option IndependentVersionMember) :=
  match item with
  | .notStr => .ok none
  | .path p =>
    match fetch p with
    | .missing => .ok none
    | .unparseable => .error ()
    | .parsed m =>
      match m.package with
      | none => .ok none
      | some pkg =>
        match pkg.version with
        | none => .ok none
        | some .workspaceTrue => .ok none
        | some (.str v) => .ok (some ⟨pkg.name.getD p, p, v⟩)
        | some .other => .ok none

/-- The members loop: process entries in order, accumulating recorded
members, aborting at the first hard error. -/
def checkMembers (fetch : String → MemberFile) :
    List MemberItem → Except Unit (List IndependentVersionMember)
  | [] => .ok []
  | item :: rest =>
    match checkMember fetch item with
    | .error e => .error e
    | .ok r =>
      match checkMembers fetch rest with
      | .error e => .error e
      | .ok rs =>
        match r with
        | none => .ok rs
        | some entry => .ok (entry :: rs)

/-- Embedding of `check_workspace_independent_versions`
(src/cargo.rs lines 193-259): empty when the root manifest has no
`[workspace]` table or no members array; otherwise the members loop. -/
def check_workspace_independent_versions (root : RootManifest)
    (fetch : String → MemberFile) :
    Except Unit (List IndependentVersionMember) :=
  match root.workspace with
  | none => .ok []
  | some none => .ok []
  | some (some members) => checkMembers fetch members

/-! ### The per-directory release workflow (src/main.rs `process_directory`)

The workflow calls its collaborators (manifest store, git) through thin
wrappers; here they are an environment of observed readings plus a trace
of emitted mutating operations, so that ordering and absence of
mutations are provable. -/

/-- The mutating collaborator operations `process_directory` can emit,
in the order it emits them. -/
inductive Event where
  | writeVersion (version : String)
  | syncLockfile
  | stageAll
  | commit (message : String)
  | amendCommitNoEdit
  | createTag (tag message : String)
deriving DecidableEq, Repr

/-- The readings the workflow obtains from its collaborators for one
target directory: repository and manifest presence, the workspace
checker result, the two raw version readings, tag existence, and the
repository state bits; `stagedFiles` is what `get_staged_files` reports
after `stage_all`, and `editorMessage` is the message produced by the
interactive editor fallback (`none` = aborted or empty). -/
structure Env where
  isGitRepo : Bool
  cargoTomlExists : Bool
  independentMembers : List IndependentVersionMember
  cargoVersionStr : Option String
  latestTagStr : Option String
  tagExists : String → Bool
  hasUncommittedChanges : Bool
  headHasTag : Bool
  isHeadPushed : Bool
  stagedFiles : List String
  editorMessage : Option String

/-- The CLI inputs `process_directory` consults. -/
structure Cli where
  dryRun : Bool
  message : Option String
  automatic : Bool

/-- Embedding of `determine_commit_message` (src/main.rs lines 200-232):
explicit message, then automatic flag, then the synthesized messages for
empty or Cargo-only staging, then the editor fallback. -/
def determine_commit_message (cli : Cli) (newTag : String)
    (staged : List String) (isInitialTag : Bool)
    (editorMessage : Option String) : Except Err String :=
  match cli.message with
  | some msg => .ok msg
  | none =>
    if cli.automatic then .ok ("Bump version to " ++ newTag)
    else if staged.isEmpty then .ok ("Release " ++ newTag)
    else if staged.all fun f => f == "Cargo.toml" || f == "Cargo.lock" then
      if isInitialTag then .ok ("Release " ++ newTag)
      else .ok ("Bump version to " ++ newTag)
    else
      match editorMessage with
      | some m => .ok m
      | none => .error .emptyCommitMessage

/-- Steps 1-5 of `process_directory` (src/main.rs lines 241-287), all
read-only: the git-repo, manifest and workspace preconditions, version
resolution, and the duplicate-tag guard. -/
def preChecks (env : Env) (b : BumpType) : Except Err VersionAction :=
  if !env.isGitRepo then .error .notGitRepo
  else if !env.cargoTomlExists then .error .noCargoToml
  else if env.independentMembers ≠ [] then
    .error (.workspaceIndependentVersions env.independentMembers)
  else
    match determine_version_action env.cargoVersionStr env.latestTagStr b with
    | .error e => .error e
    | .ok action =>
      if env.tagExists (format_tag action.target_version) then
        .error (.tagAlreadyExists (format_tag action.target_version))
      else .ok action

/-- The dirty-tree workflow and the clean-tree pushed branch share this
shape (src/main.rs lines 311-338 and 361-373): optional manifest write
and lockfile sync, stage, resolve the commit message, commit when
anything is staged, then tag with the commit message. -/
def commitAndTag (env : Env) (cli : Cli) (action : VersionAction)
    (newTag newCargoVersion : String) : Except Err Unit × List Event :=
  let evs1 :=
    if action.needs_cargo_update then
      [Event.writeVersion newCargoVersion, Event.syncLockfile]
    else []
  let evs2 := evs1 ++ [Event.stageAll]
  match determine_commit_message cli newTag env.stagedFiles
      action.is_initial_tag env.editorMessage with
  | .error e => (.error e, evs2)
  | .ok msg =>
    let evs3 := evs2 ++ (if env.stagedFiles.isEmpty then [] else [Event.commit msg])
    (.ok (), evs3 ++ [Event.createTag newTag msg])

/-- Embedding of `process_directory` (src/main.rs lines 235-397) as a
function from the observed environment to the outcome and the trace of
mutating operations, with the branching of the source: preconditions and
duplicate-tag guard, then the dry-run early return, then the dirty-tree
workflow, and on a clean tree the already-tagged guard followed by the
pushed (new commit) or unpushed (amend, automatic tag message) branch. -/
def process_directory (env : Env) (cli : Cli) (b : BumpType) :
    Except Err Unit × List Event :=
  match preChecks env b with
  | .error e => (.error e, [])
  | .ok action =>
    let newTag := format_tag action.target_version
    let newCargoVersion := format_cargo_version action.target_version
    if cli.dryRun then (.ok (), [])
    else if env.hasUncommittedChanges then
      commitAndTag env cli action newTag newCargoVersion
    else if env.headHasTag then (.error .headAlreadyTagged, [])
    else if env.isHeadPushed then
      commitAndTag env cli action newTag newCargoVersion
    else
      let evs1 :=
        (if action.needs_cargo_update then
          [Event.writeVersion newCargoVersion, Event.syncLockfile]
        else []) ++ [Event.stageAll]
      let evs2 := evs1 ++
        (if env.stagedFiles.isEmpty then [] else [Event.amendCommitNoEdit])
      (.ok (), evs2 ++ [Event.createTag newTag ("Bump version to " ++ newTag)])

/-- The errors raised by the read-only checks that precede the dry-run
branch point of `process_directory` (steps 1-5); `headAlreadyTagged` and
`emptyCommitMessage` arise only inside the real workflow branches. -/
def isPreGuard : Err → Bool
  | .headAlreadyTagged => false
  | .emptyCommitMessage => false
  | _ => true

/-! ### Concrete environments used as counterexamples and witnesses -/

/-- A repository whose target tag already exists: manifest at 0.1.0,
latest tag v0.1.0, and every tag reported as existing. -/
def envTagExists : Env :=
  { isGitRepo := true, cargoTomlExists := true, independentMembers := [],
    cargoVersionStr := some "0.1.0", latestTagStr := some "v0.1.0",
    tagExists := fun _ => true, hasUncommittedChanges := false,
    headHasTag := false, isHeadPushed := false, stagedFiles := [],
    editorMessage := none }

/-- A clean repository whose HEAD already carries a tag: manifest at
0.1.0, latest tag v0.1.0, no uncommitted changes. -/
def envHeadTagged : Env :=
  { isGitRepo := true, cargoTomlExists := true, independentMembers := [],
    cargoVersionStr := some "0.1.0", latestTagStr := some "v0.1.0",
    tagExists := fun _ => false, hasUncommittedChanges := false,
    headHasTag := true, isHeadPushed := false, stagedFiles := [],
    editorMessage := none }

/-- A clean repository with an untagged, unpushed HEAD: the amend-and-tag
branch of the workflow applies. -/
def envUnpushed : Env :=
  { isGitRepo := true, cargoTomlExists := true, independentMembers := [],
    cargoVersionStr := some "0.1.0", latestTagStr := some "v0.1.0",
    tagExists := fun _ => false, hasUncommittedChanges := false,
    headHasTag := false, isHeadPushed := false,
    stagedFiles := ["Cargo.toml"], editorMessage := none }

/-- A workspace root with one member `m`. -/
def rootOneMember : RootManifest := ⟨some (some [.path "m"])⟩

/-- Member manifests where `m` declares a version that is a non-string
TOML value (for example `version = 123`): the version field is present
and does not indicate workspace inheritance. -/
def fetchOtherVersion : String → MemberFile :=
  fun _ => .parsed ⟨some ⟨some "m", some .other⟩⟩

/-- Member manifests for the specification scenario: `crate-a` inherits
the shared workspace version, `crate-b` declares `version = "2.0.0"`. -/
def fetchCrates : String → MemberFile :=
  fun p =>
    if p == "crate-b" then
      .parsed ⟨some ⟨some "crate-b", some (.str "2.0.0")⟩⟩
    else
      .parsed ⟨some ⟨some "crate-a", some .workspaceTrue⟩⟩

/-- Member manifests where every member manifest lacks a version field. -/
def fetchNoVersion : String → MemberFile :=
  fun _ => .parsed ⟨some ⟨some "a", none⟩⟩

/-- A member-manifest map with no files on disk at all. -/
def fetchMissing : String → MemberFile := fun _ => .missing

/-! ### Helper lemmas -/

lemma stripV_v_append (s : String) : stripV ("v" ++ s) = s := by
  cases s with
  | mk data => rfl

lemma stripV_of_head_ne (s : String) (h : s.data.head? ≠ some 'v') :
    stripV s = s := by
  unfold stripV
  split
  · rename_i rest heq
    exfalso
    apply h
    rw [heq]
    rfl
  · rfl

lemma determine_commit_message_error_eq (cli : Cli) (newTag : String)
    (staged : List String) (isInitialTag : Bool) (ed : Option String) (e : Err)
    (h : determine_commit_message cli newTag staged isInitialTag ed = .error e) :
    e = .emptyCommitMessage := by
  unfold determine_commit_message at h
  split at h
  · cases h
  · split at h
    · cases h
    · split at h
      · cases h
      · split at h
        · split at h <;> cases h
        · split at h
          · cases h
          · cases h
            rfl

lemma commitAndTag_result (env : Env) (cli : Cli) (action : VersionAction)
    (newTag newCargoVersion : String) :
    (commitAndTag env cli action newTag newCargoVersion).1 = .ok () ∨
    (commitAndTag env cli action newTag newCargoVersion).1 =
      .error .emptyCommitMessage := by
  unfold commitAndTag
  cases h : determine_commit_message cli newTag env.stagedFiles
      action.is_initial_tag env.editorMessage with
  | error e =>
    right
    have he : e = .emptyCommitMessage :=
      determine_commit_message_error_eq _ _ _ _ _ _ h
    simp [h, he]
  | ok m => simp [h]

lemma process_directory_of_preChecks_error (env : Env) (cli : Cli)
    (b : BumpType) (e : Err) (h : preChecks env b = .error e) :
    process_directory env cli b = (.error e, []) := by
  simp [process_directory, h]

lemma process_directory_results (env : Env) (cli : Cli) (b : BumpType)
    (action : VersionAction) (h : preChecks env b = .ok action) :
    (process_directory env cli b).1 = .ok () ∨
    process_directory env cli b = (.error .headAlreadyTagged, []) ∨
    (process_directory env cli b).1 = .error .emptyCommitMessage := by
  by_cases hd : cli.dryRun
  · simp [process_directory, h, hd]
  · by_cases hc : env.hasUncommittedChanges
    · rcases commitAndTag_result env cli action
          (format_tag action.target_version)
          (format_cargo_version action.target_version) with h1 | h1 <;>
        simp [process_directory, h, hd, hc, h1]
    · by_cases ht : env.headHasTag
      · simp [process_directory, h, hd, hc, ht]
      · by_cases hpsh : env.isHeadPushed
        · rcases commitAndTag_result env cli action
              (format_tag action.target_version)
              (format_cargo_version action.target_version) with h1 | h1 <;>
            simp [process_directory, h, hd, hc, ht, hpsh, h1]
        · simp [process_directory, h, hd, hc, ht, hpsh]

lemma process_error_preGuard_iff (env : Env) (cli : Cli) (b : BumpType)
    (e : Err) (hg : isPreGuard e = true) :
    (process_directory env cli b).1 = .error e ↔ preChecks env b = .error e := by
  constructor
  · intro h
    cases hp : preChecks env b with
    | error e2 =>
      rw [process_directory_of_preChecks_error env cli b e2 hp] at h
      simp at h
      rw [h]
    | ok action =>
      rcases process_directory_results env cli b action hp with h1 | h1 | h1
      · rw [h] at h1
        cases h1
      · rw [h1] at h
        simp at h
        rw [← h] at hg
        simp [isPreGuard] at hg
      · rw [h] at h1
        simp at h1
        subst h1
        simp [isPreGuard] at hg
  · intro h
    rw [process_directory_of_preChecks_error env cli b e h]

lemma checkMembers_missing_skip (fetch : String → MemberFile) (p : String)
    (hp : fetch p = .missing) (xs ys : List MemberItem) :
    checkMembers fetch (xs ++ .path p :: ys) = checkMembers fetch (xs ++ ys) := by
  induction xs with
  | nil =>
    simp only [List.nil_append, checkMembers, checkMember, hp]
    cases checkMembers fetch ys <;> rfl
  | cons x xs ih =>
    cases hx : checkMember fetch x <;>
      simp [checkMembers, hx, ih]

end Bump

namespace Bump

/-! ### Claims -/

/-- C4 counterexample: at major = 2^64 - 1 = 18446744073709551615 — a
value the program's own parser accepts, e.g. from the tag
v18446744073709551615.0.0 — a major bump wraps the u64 component to 0,
so the result is not strictly greater under the triple ordering and the
major component is not incremented. -/
theorem bump_version_wraps_at_u64_max :
    parse_version "v18446744073709551615.0.0" =
      .ok ⟨18446744073709551615, 0, 0, "", ""⟩ ∧
    bump_version ⟨18446744073709551615, 0, 0, "", ""⟩ .major =
      ⟨0, 0, 0, "", ""⟩ ∧
    ¬semverLt ⟨18446744073709551615, 0, 0, "", ""⟩
      (bump_version ⟨18446744073709551615, 0, 0, "", ""⟩ .major) := by
  refine ⟨rfl, ?_, ?_⟩
  · simp [bump_version]
  · simp [bump_version, semverLt]

/-- C4 (amended): for every version whose components admit an increment
inside the u64 domain (every version short of a component at u64::MAX,
where the increment instead wraps modulo 2^64, per the counterexample)
and every granularity, `bump_version` yields a strictly greater version
under lexicographic triple ordering, and the components change exactly
per the granularity: Major increments major and zeros minor and patch,
Minor increments minor and zeros patch leaving major, Patch increments
patch leaving major and minor. -/
theorem bump_version_strictly_increases (v : SemVer) (g : BumpType)
    (hmaj : v.major + 1 < 2 ^ 64) (hmin : v.minor + 1 < 2 ^ 64)
    (hpat : v.patch + 1 < 2 ^ 64) :
    semverLt v (bump_version v g) ∧
    bump_version v .major = ⟨v.major + 1, 0, 0, v.pre, v.build⟩ ∧
    bump_version v .minor = ⟨v.major, v.minor + 1, 0, v.pre, v.build⟩ ∧
    bump_version v .patch = ⟨v.major, v.minor, v.patch + 1, v.pre, v.build⟩ := by
  refine ⟨?_, ?_, ?_, ?_⟩
  · cases g <;> simp [bump_version, semverLt] <;> omega
  · simp [bump_version]
    omega
  · simp [bump_version]
    omega
  · simp [bump_version]
    omega

/-- Witness for C4 at version 1.2.3 with a patch bump. -/
theorem bump_version_strictly_increases_witness :
    semverLt ⟨1, 2, 3, "", ""⟩ (bump_version ⟨1, 2, 3, "", ""⟩ .patch) ∧
    bump_version ⟨1, 2, 3, "", ""⟩ .major = ⟨2, 0, 0, "", ""⟩ ∧
    bump_version ⟨1, 2, 3, "", ""⟩ .minor = ⟨1, 3, 0, "", ""⟩ ∧
    bump_version ⟨1, 2, 3, "", ""⟩ .patch = ⟨1, 2, 4, "", ""⟩ :=
  bump_version_strictly_increases ⟨1, 2, 3, "", ""⟩ .patch
    (by norm_num) (by norm_num) (by norm_num)

/-- C3: when the manifest version is exactly 0.1.0 and a tag is present,
resolution bumps the tag version (not the manifest), requests a manifest
update, and is not an initial tag; for every tag version and
granularity. -/
theorem resolve_untouched_default_defers_to_tag (t : SemVer) (g : BumpType) :
    resolveVersions (some DEFAULT_UNTOUCHED_VERSION) (some t) g =
      .ok ⟨bump_version t g, true, false⟩ := by
  simp [resolveVersions]

/-- C2: when both versions are present, the manifest version is not
0.1.0 and differs from the tag version, resolution fails with the
version-mismatch error carrying both versions (so no action is
produced), for any granularity, and the rendered message names both
conflicting versions. -/
theorem resolve_mismatch_fails (m t : SemVer) (g : BumpType)
    (hm : m ≠ DEFAULT_UNTOUCHED_VERSION) (hmt : m ≠ t) :
    resolveVersions (some m) (some t) g = .error (.versionMismatch m t) ∧
    ∃ s₁ s₂ s₃, renderMismatchMessage m t =
      s₁ ++ format_cargo_version m ++ s₂ ++ format_tag t ++ s₃ := by
  refine ⟨by simp [resolveVersions, hm, hmt], "Version mismatch: Cargo.toml has ",
    " but latest git tag is ", ". Please sync them manually before running bump.", ?_⟩
  simp [renderMismatchMessage, String.append_assoc]

/-- Witness for C2 at manifest 0.2.0 against tag v0.1.28. -/
theorem resolve_mismatch_fails_witness :
    resolveVersions (some ⟨0, 2, 0, "", ""⟩) (some ⟨0, 1, 28, "", ""⟩) .patch =
      .error (.versionMismatch ⟨0, 2, 0, "", ""⟩ ⟨0, 1, 28, "", ""⟩) ∧
    ∃ s₁ s₂ s₃, renderMismatchMessage ⟨0, 2, 0, "", ""⟩ ⟨0, 1, 28, "", ""⟩ =
      s₁ ++ format_cargo_version ⟨0, 2, 0, "", ""⟩ ++ s₂ ++
        format_tag ⟨0, 1, 28, "", ""⟩ ++ s₃ :=
  resolve_mismatch_fails ⟨0, 2, 0, "", ""⟩ ⟨0, 1, 28, "", ""⟩ .patch
    (by decide) (by decide)

/-- C5: with a manifest version and no tag, resolution returns the
manifest version unchanged with no manifest update as an initial tag;
with neither reading, it returns 0.1.0 with a manifest update as an
initial tag; in both cases for any granularity. -/
theorem resolve_absent_tag_cases (m : SemVer) (g : BumpType) :
    resolveVersions (some m) none g = .ok ⟨m, false, true⟩ ∧
    resolveVersions none none g = .ok ⟨⟨0, 1, 0, "", ""⟩, true, true⟩ :=
  ⟨rfl, rfl⟩

/-- C10: a version reading that exists but fails parsing is mapped to
`none` by `.ok()` and version resolution behaves exactly as if that
source were absent, on either side. -/
theorem unparseable_reading_is_absent (s : String) (cargoStr tagStr : Option String)
    (g : BumpType) (h : (parse_version s).toOption = none) :
    determine_version_action (some s) tagStr g =
      determine_version_action none tagStr g ∧
    determine_version_action cargoStr (some s) g =
      determine_version_action cargoStr none g := by
  constructor <;> simp [determine_version_action, h]

/-- Witness for C10 at the pre-release reading "1.0.0-alpha". -/
theorem unparseable_reading_is_absent_witness :
    determine_version_action (some "1.0.0-alpha") (some "v1.2.3") .patch =
      determine_version_action none (some "v1.2.3") .patch ∧
    determine_version_action (some "0.1.0") (some "1.0.0-alpha") .patch =
      determine_version_action (some "0.1.0") none .patch :=
  unparseable_reading_is_absent "1.0.0-alpha" (some "0.1.0") (some "v1.2.3")
    .patch (by decide)

/-- C6: version parsing strips one optional leading v; it fails on every
input that is a semver with a pre-release or build-metadata suffix; and
it succeeds on every input that is a plain major.minor.patch semver,
returning that triple. -/
theorem parse_version_spec :
    (∀ s : String, s.data.head? ≠ some 'v' →
      parse_version ("v" ++ s) = parse_version s) ∧
    (∀ (s : String) (v : SemVer), semverParse (stripV s) = some v →
      (v.pre ≠ "" ∨ v.build ≠ "") → ∃ e, parse_version s = .error e) ∧
    (∀ (s : String) (v : SemVer), semverParse (stripV s) = some v →
      v.pre = "" → v.build = "" → parse_version s = .ok v) := by
  refine ⟨?_, ?_, ?_⟩
  · intro s h
    rw [parse_version, parse_version, stripV_v_append, stripV_of_head_ne s h]
  · intro s v h hsuf
    by_cases hpre : v.pre = ""
    · have hbuild : v.build ≠ "" := by
        rcases hsuf with h1 | h1
        · exact absurd hpre h1
        · exact h1
      exact ⟨"Build metadata versions are not supported: " ++ stripV s,
        by simp [parse_version, h, hpre, hbuild]⟩
    · exact ⟨"Pre-release versions are not supported: " ++ stripV s,
        by simp [parse_version, h, hpre]⟩
  · intro s v h hpre hbuild
    simp [parse_version, h, hpre, hbuild]

/-- Witness for C6: the v prefix is stripped on "v1.2.3", the
pre-release input "1.0.0-alpha" is rejected, and "v1.2.3" parses to the
triple (1, 2, 3). -/
theorem parse_version_spec_witness :
    parse_version ("v" ++ "1.2.3") = parse_version "1.2.3" ∧
    (∃ e, parse_version "1.0.0-alpha" = .error e) ∧
    parse_version "v1.2.3" = .ok ⟨1, 2, 3, "", ""⟩ :=
  ⟨parse_version_spec.1 "1.2.3" (by decide),
    parse_version_spec.2.1 "1.0.0-alpha" ⟨1, 0, 0, "alpha", ""⟩ (by decide)
      (Or.inl (by decide)),
    parse_version_spec.2.2 "v1.2.3" ⟨1, 2, 3, "", ""⟩ (by decide) rfl rfl⟩

/-- C7 counterexample: a workspace member whose version field is present
(a non-string TOML value) and does not indicate workspace inheritance is
nevertheless not included — the checker returns the empty list. -/
theorem workspace_nonstring_version_skipped :
    check_workspace_independent_versions rootOneMember fetchOtherVersion =
      .ok [] ∧
    fetchOtherVersion "m" = .parsed ⟨some ⟨some "m", some .other⟩⟩ ∧
    some VersionItem.other ≠ none ∧
    some VersionItem.other ≠ some .workspaceTrue :=
  ⟨rfl, rfl, by decide, by decide⟩

/-- C7 (amended): the checker returns the empty list when the root is
not a workspace or declares no members; a declared member whose manifest
is missing is silently skipped, contributing neither an error nor an
entry; a member with no version field (or no package table) is not
included; and a member whose version field is a plain string — the only
present form that does not indicate workspace inheritance and carries a
version string — is included with its name, path, and version.  (A
present version value that is neither a plain string nor the
workspace-inheritance table is skipped, per the counterexample.) -/
theorem workspace_checker_spec :
    (∀ fetch, check_workspace_independent_versions ⟨none⟩ fetch = .ok []) ∧
    (∀ fetch, check_workspace_independent_versions ⟨some none⟩ fetch = .ok []) ∧
    (∀ fetch p xs ys, fetch p = MemberFile.missing →
      checkMembers fetch (xs ++ .path p :: ys) = checkMembers fetch (xs ++ ys)) ∧
    (∀ fetch p m, fetch p = MemberFile.parsed m →
      (m.package = none ∨ ∃ pkg, m.package = some pkg ∧ pkg.version = none) →
      checkMember fetch (.path p) = .ok none) ∧
    (∀ fetch p pkg v, fetch p = MemberFile.parsed ⟨some pkg⟩ →
      pkg.version = some (.str v) →
      checkMember fetch (.path p) = .ok (some ⟨pkg.name.getD p, p, v⟩)) := by
  refine ⟨fun fetch => rfl, fun fetch => rfl,
    fun fetch p xs ys hp => checkMembers_missing_skip fetch p hp xs ys,
    ?_, ?_⟩
  · intro fetch p m hp hv
    rcases hv with hnone | ⟨pkg, hpkg, hver⟩
    · simp [checkMember, hp, hnone]
    · simp [checkMember, hp, hpkg, hver]
  · intro fetch p pkg v hp hv
    simp [checkMember, hp, hv]

/-- Witness for C7: concrete instantiations of every hypothesized part —
a missing member is skipped, a member with no version field contributes
nothing, and the scenario member crate-b with independent version 2.0.0
is recorded with its name, path, and version. -/
theorem workspace_checker_spec_witness :
    checkMembers fetchMissing ([] ++ .path "a" :: []) =
      checkMembers fetchMissing ([] ++ []) ∧
    checkMember fetchNoVersion (.path "a") = .ok none ∧
    checkMember fetchCrates (.path "crate-b") =
      .ok (some ⟨(some "crate-b").getD "crate-b", "crate-b", "2.0.0"⟩) :=
  ⟨workspace_checker_spec.2.2.1 fetchMissing "a" [] [] rfl,
    workspace_checker_spec.2.2.2.1 fetchNoVersion "a" ⟨some ⟨some "a", none⟩⟩
      rfl (Or.inr ⟨⟨some "a", none⟩, rfl, rfl⟩),
    workspace_checker_spec.2.2.2.2 fetchCrates "crate-b"
      ⟨some "crate-b", some (.str "2.0.0")⟩ "2.0.0" rfl rfl⟩

/-- C8: whenever per-directory processing fails with the
tag-already-exists guard or with the clean-tree HEAD-already-tagged
guard, the trace of mutating operations (manifest write, lockfile sync,
staging, commit, amend, tag creation) is empty: both guards are
evaluated before any write. -/
theorem guards_precede_mutation (env : Env) (cli : Cli) (b : BumpType) :
    (∀ t, (process_directory env cli b).1 = .error (.tagAlreadyExists t) →
      (process_directory env cli b).2 = []) ∧
    ((process_directory env cli b).1 = .error .headAlreadyTagged →
      (process_directory env cli b).2 = []) := by
  constructor
  · intro t h
    have hp := (process_error_preGuard_iff env cli b (.tagAlreadyExists t) rfl).1 h
    rw [process_directory_of_preChecks_error env cli b _ hp]
  · intro h
    cases hp : preChecks env b with
    | error e => rw [process_directory_of_preChecks_error env cli b e hp]
    | ok action =>
      rcases process_directory_results env cli b action hp with h1 | h1 | h1
      · rw [h] at h1
        cases h1
      · rw [h1]
      · rw [h] at h1
        simp at h1

/-- Witness for C8: on a repository whose target tag already exists and
on a clean already-tagged repository, the failing runs emit no mutating
operations. -/
theorem guards_precede_mutation_witness :
    (process_directory envTagExists ⟨false, none, false⟩ .patch).2 = [] ∧
    (process_directory envHeadTagged ⟨false, none, false⟩ .patch).2 = [] :=
  ⟨(guards_precede_mutation envTagExists ⟨false, none, false⟩ .patch).1
      "v0.1.1" rfl,
    (guards_precede_mutation envHeadTagged ⟨false, none, false⟩ .patch).2 rfl⟩

/-- C9: on the clean-tree path with HEAD untagged and not pushed, the
workflow writes the manifest and syncs the lockfile exactly when the
action requires it, stages, amends the previous commit without editing
its message exactly when something is staged, and creates the annotated
tag with the automatic bump message for the target tag — for every CLI
message configuration, so never with an explicit or interactive
message. -/
theorem clean_unpushed_amend_and_tag (env : Env) (cli : Cli) (b : BumpType)
    (action : VersionAction) (hd : cli.dryRun = false)
    (hp : preChecks env b = .ok action)
    (hc : env.hasUncommittedChanges = false) (ht : env.headHasTag = false)
    (hpsh : env.isHeadPushed = false) :
    process_directory env cli b =
      (.ok (),
        (if action.needs_cargo_update then
          [Event.writeVersion (format_cargo_version action.target_version),
            Event.syncLockfile]
        else []) ++ [Event.stageAll] ++
          (if env.stagedFiles.isEmpty then [] else [Event.amendCommitNoEdit]) ++
          [Event.createTag (format_tag action.target_version)
            ("Bump version to " ++ format_tag action.target_version)]) := by
  simp [process_directory, hp, hd, hc, ht, hpsh]

/-- Witness for C9: with an explicit --message on the CLI, the
clean-unpushed run still amends and tags v0.1.1 with the automatic bump
message. -/
theorem clean_unpushed_amend_and_tag_witness :
    process_directory envUnpushed ⟨false, some "custom", false⟩ .patch =
      (.ok (), [Event.writeVersion "0.1.1", Event.syncLockfile,
        Event.stageAll, Event.amendCommitNoEdit,
        Event.createTag "v0.1.1" "Bump version to v0.1.1"]) := by
  have h := clean_unpushed_amend_and_tag envUnpushed
    ⟨false, some "custom", false⟩ .patch ⟨⟨0, 1, 1, "", ""⟩, true, false⟩
    rfl rfl rfl rfl rfl
  rw [h]
  rfl

/-- C1 counterexample: on a clean repository whose HEAD already carries
a tag, the real run fails with the HEAD-already-tagged error but the dry
run reports success — dry-run does not surface that failure. -/
theorem dry_run_misses_head_tagged :
    (process_directory envHeadTagged ⟨false, none, false⟩ .patch).1 =
      .error .headAlreadyTagged ∧
    (process_directory envHeadTagged ⟨true, none, false⟩ .patch).1 = .ok () ∧
    (process_directory envHeadTagged ⟨true, none, false⟩ .patch).2 = [] :=
  ⟨rfl, rfl, rfl⟩

/-- C1 (amended): for every target environment, the dry run performs no
mutating step, surfaces exactly the same pre-branch precondition and
resolution errors as the real run (not-a-repository, missing manifest,
independent workspace versions, version mismatch, tag-already-exists),
and reports success whenever those checks pass — in particular it does
not surface the clean-tree HEAD-already-tagged failure. -/
theorem dry_run_spec (env : Env) (msg : Option String) (auto : Bool)
    (b : BumpType) :
    (process_directory env ⟨true, msg, auto⟩ b).2 = [] ∧
    (∀ e, isPreGuard e = true →
      ((process_directory env ⟨true, msg, auto⟩ b).1 = .error e ↔
        (process_directory env ⟨false, msg, auto⟩ b).1 = .error e)) ∧
    (∀ action, preChecks env b = .ok action →
      (process_directory env ⟨true, msg, auto⟩ b).1 = .ok ()) := by
  refine ⟨?_, ?_, ?_⟩
  · cases hp : preChecks env b with
    | error e => rw [process_directory_of_preChecks_error env _ b e hp]
    | ok action => simp [process_directory, hp]
  · intro e hg
    rw [process_error_preGuard_iff env ⟨true, msg, auto⟩ b e hg,
      process_error_preGuard_iff env ⟨false, msg, auto⟩ b e hg]
  · intro action hp
    simp [process_directory, hp]

/-- Witness for C1: the tag-already-exists error is surfaced identically
by the dry and real runs, and the dry run succeeds on the clean unpushed
repository. -/
theorem dry_run_spec_witness :
    ((process_directory envTagExists ⟨true, none, false⟩ .patch).1 =
        .error (.tagAlreadyExists "v0.1.1") ↔
      (process_directory envTagExists ⟨false, none, false⟩ .patch).1 =
        .error (.tagAlreadyExists "v0.1.1")) ∧
    (process_directory envUnpushed ⟨true, none, false⟩ .patch).1 = .ok () :=
  ⟨(dry_run_spec envTagExists none false .patch).2.1
      (.tagAlreadyExists "v0.1.1") rfl,
    (dry_run_spec envUnpushed none false .patch).2.2
      ⟨⟨0, 1, 1, "", ""⟩, true, false⟩ rfl⟩

end Bump
